import Mathlib

/-!
Shallow embedding of the apartment-listings service (`src/main.py` together
with the Pydantic models of `src/listings/listings.py`).

Modelling conventions:
- Python `float` query parameters and the `monthly_rent` field become `Rat`
  (only comparisons are performed on them, never arithmetic).
- Python `int` becomes `Int`, `datetime.utcnow()` timestamps become `Nat`
  instants passed explicitly to each operation, and `uuid4()` identifiers
  become `Nat` values passed explicitly.
- The module-level dict `listings_db` becomes an explicit association list
  threaded through every handler; Python dict semantics (lookup of the first
  matching key, in-place value replacement on assignment to a present key,
  append on assignment to an absent key, `values()` in insertion order) are
  reproduced by `dictGet`, `dictSet` and `list_listings`.
- `HTTPException` becomes the `ApiError` sum; a handler returns the store it
  leaves behind together with either an error or a `Response` carrying the
  route's success status code and the response body.
-/

namespace ApartmentListings

/-- Modelled from the spec: `src/listings/address.py` is absent from the
repository snapshot, so the address creation payload follows section 4.2 of
the specification — street and city are required text, while state, postal
code and country are optional. -/
structure AddressCreate where
  street : String
  city : String
  state : Option String
  postal_code : Option String
  country : Option String
deriving DecidableEq, Repr

/-- Modelled from the spec: the stored address record of section 3 —
the creation fields plus a generated identifier and the two timestamps. -/
structure AddressRead where
  id : Nat
  street : String
  city : String
  state : Option String
  postal_code : Option String
  country : Option String
  created_at : Nat
  updated_at : Nat
deriving DecidableEq, Repr

/-- `ListingCreate` of `src/listings/listings.py`: the client-supplied
creation payload, with the inline address creation payload. -/
structure ListingCreate where
  title : String
  description : Option String
  monthly_rent : Rat
  num_bedrooms : Int
  num_bathrooms : Int
  square_feet : Option Int
  amenities : List String
  is_available : Bool
  address : AddressCreate
deriving DecidableEq, Repr

/-- `ListingRead` of `src/listings/listings.py`: the stored record with
server-generated identifier, timestamps, and embedded address record. -/
structure ListingRead where
  id : Nat
  title : String
  description : Option String
  monthly_rent : Rat
  num_bedrooms : Int
  num_bathrooms : Int
  square_feet : Option Int
  amenities : List String
  is_available : Bool
  address : AddressRead
  created_at : Nat
  updated_at : Nat
deriving DecidableEq, Repr

/-- The in-memory store `listings_db : Dict[UUID, ListingRead]`. -/
abbrev Db := List (Nat × ListingRead)

/-- Python `dict` lookup (`listings_db.get(k)` / `k in listings_db`):
the value at the first entry carrying the key, if any. -/
def dictGet (db : Db) (k : Nat) : Option ListingRead :=
  match db with
  | [] => none
  | (k', v) :: rest => if k' = k then some v else dictGet rest k

/-- Python `dict` assignment `listings_db[k] = v`: replace the value in
place when the key is present, append a new entry otherwise. -/
def dictSet (db : Db) (k : Nat) (v : ListingRead) : Db :=
  if (dictGet db k).isSome then
    db.map (fun p => if p.1 = k then (k, v) else p)
  else
    db ++ [(k, v)]

/-- Python `del listings_db[k]` (the key is known present): drop every
entry carrying the key. -/
def dictDel (db : Db) (k : Nat) : Db :=
  db.filter (fun p => decide (p.1 ≠ k))

/-- Python `str.lower()`: lower-case every character. -/
def strLower (s : String) : String :=
  ⟨s.data.map Char.toLower⟩

/-- The two error responses raised by the handlers of `src/main.py`. -/
inductive ApiError where
  | conflict
  | notFound
deriving DecidableEq, Repr

/-- The HTTP status code each `HTTPException` of `src/main.py` carries:
400 for the create-time identifier collision, 404 for a missing listing. -/
def ApiError.statusCode : ApiError → Nat
  | .conflict => 400
  | .notFound => 404

/-- A successful response: the route's success status code and the body. -/
structure Response (α : Type) where
  statusCode : Nat
  body : α
deriving DecidableEq, Repr

/-- `make_address_read` of `src/main.py`: build the stored address record
from the creation payload, with the generated identifier `aid` and both
timestamps set to the single instant `now`. -/
def make_address_read (aid : Nat) (now : Nat) (addr : AddressCreate) : AddressRead :=
  { id := aid
    street := addr.street
    city := addr.city
    state := addr.state
    postal_code := addr.postal_code
    country := addr.country
    created_at := now
    updated_at := now }

/-- `make_listing_read` of `src/main.py`: build the stored listing record
from the creation payload. `lid` and `nowL` are the generated listing
identifier and the instant read at the top of the function; `aid` and `nowA`
are the identifier and instant generated inside the nested
`make_address_read` call. The Python `payload.amenities or []` maps a falsy
(empty) list to `[]`. -/
def make_listing_read (lid : Nat) (nowL : Nat) (aid : Nat) (nowA : Nat)
    (payload : ListingCreate) : ListingRead :=
  { id := lid
    title := payload.title
    description := payload.description
    monthly_rent := payload.monthly_rent
    num_bedrooms := payload.num_bedrooms
    num_bathrooms := payload.num_bathrooms
    square_feet := payload.square_feet
    amenities := if payload.amenities.isEmpty then [] else payload.amenities
    is_available := payload.is_available
    address := make_address_read aid nowA payload.address
    created_at := nowL
    updated_at := nowL }

/-- `POST /listings` (`create_listing` of `src/main.py`): build the record,
reject with the 400 collision error if the generated identifier is already a
key of the store, otherwise insert and return the stored record with the
route's 201 status. -/
def create_listing (lid : Nat) (nowL : Nat) (aid : Nat) (nowA : Nat)
    (db : Db) (payload : ListingCreate) :
    Db × Except ApiError (Response ListingRead) :=
  let listing := make_listing_read lid nowL aid nowA payload
  if (dictGet db listing.id).isSome then
    (db, .error .conflict)
  else
    let db' := dictSet db listing.id listing
    (db', .ok ⟨201, listing⟩)

/-- The twelve optional query parameters of `GET /listings`. -/
structure ListingFilters where
  min_rent : Option Rat
  max_rent : Option Rat
  min_bedrooms : Option Int
  max_bedrooms : Option Int
  min_bathrooms : Option Rat
  max_bathrooms : Option Rat
  min_sqft : Option Int
  max_sqft : Option Int
  amenities : Option (List String)
  city : Option String
  state : Option String
  is_available : Option Bool
deriving DecidableEq, Repr

/-- A `if param is not None: results = [l for l in results if test]` step of
`list_listings`. -/
def optFilter {α : Type} (o : Option α) (t : α → ListingRead → Bool)
    (results : List ListingRead) : List ListingRead :=
  match o with
  | none => results
  | some v => results.filter (t v)

/-- A `if param:` step of `list_listings` whose parameter is an optional
string: Python truthiness skips the filter on `None` and on the empty
string. -/
def truthyStrFilter (o : Option String) (t : String → ListingRead → Bool)
    (results : List ListingRead) : List ListingRead :=
  match o with
  | none => results
  | some s => if s = "" then results else results.filter (t s)

/-- The `if amenities:` step of `list_listings`: Python truthiness skips the
filter on `None` and on the empty list. -/
def truthyListFilter (o : Option (List String)) (t : List String → ListingRead → Bool)
    (results : List ListingRead) : List ListingRead :=
  match o with
  | none => results
  | some a => if a = [] then results else results.filter (t a)

/-- The per-listing test of the `min_rent` filter: `l.monthly_rent >= min_rent`. -/
def minRentTest (v : Rat) (l : ListingRead) : Bool := decide (v ≤ l.monthly_rent)

/-- The per-listing test of the `max_rent` filter: `l.monthly_rent <= max_rent`. -/
def maxRentTest (v : Rat) (l : ListingRead) : Bool := decide (l.monthly_rent ≤ v)

/-- The per-listing test of the `min_bedrooms` filter. -/
def minBedroomsTest (v : Int) (l : ListingRead) : Bool := decide (v ≤ l.num_bedrooms)

/-- The per-listing test of the `max_bedrooms` filter. -/
def maxBedroomsTest (v : Int) (l : ListingRead) : Bool := decide (l.num_bedrooms ≤ v)

/-- The per-listing test of the `min_bathrooms` filter (a float bound against
the integer bathroom count). -/
def minBathroomsTest (v : Rat) (l : ListingRead) : Bool :=
  decide (v ≤ (l.num_bathrooms : Rat))

/-- The per-listing test of the `max_bathrooms` filter. -/
def maxBathroomsTest (v : Rat) (l : ListingRead) : Bool :=
  decide ((l.num_bathrooms : Rat) ≤ v)

/-- The per-listing test of the `min_sqft` filter:
`(l.square_feet or 0) >= min_sqft` — a missing square footage reads as 0. -/
def minSqftTest (v : Int) (l : ListingRead) : Bool :=
  decide (v ≤ l.square_feet.getD 0)

/-- The per-listing test of the `max_sqft` filter:
`(l.square_feet or 0) <= max_sqft`. -/
def maxSqftTest (v : Int) (l : ListingRead) : Bool :=
  decide (l.square_feet.getD 0 ≤ v)

/-- The per-listing test of the `is_available` filter: exact equality. -/
def isAvailableTest (v : Bool) (l : ListingRead) : Bool := l.is_available == v

/-- The per-listing test of the `amenities` filter:
`all(a in l.amenities for a in amenities)`. -/
def amenitiesTest (req : List String) (l : ListingRead) : Bool :=
  req.all (fun a => l.amenities.contains a)

/-- The per-listing test of the `city` filter:
`l.address.city.lower() == city.lower()`. -/
def cityTest (c : String) (l : ListingRead) : Bool :=
  strLower l.address.city == strLower c

/-- The per-listing test of the `state` filter:
`l.address.state and l.address.state.lower() == state.lower()` — a missing
state is falsy, as is an empty-string state. -/
def stateTest (s : String) (l : ListingRead) : Bool :=
  match l.address.state with
  | none => false
  | some st => if st = "" then false else strLower st == strLower s

/-- `GET /listings` (`list_listings` of `src/main.py`): take all stored
records in insertion order and narrow them by each supplied filter in the
order the source applies them. -/
def list_listings (db : Db) (f : ListingFilters) : List ListingRead :=
  let results := db.map Prod.snd
  let results := optFilter f.min_rent minRentTest results
  let results := optFilter f.max_rent maxRentTest results
  let results := optFilter f.min_bedrooms minBedroomsTest results
  let results := optFilter f.max_bedrooms maxBedroomsTest results
  let results := optFilter f.min_bathrooms minBathroomsTest results
  let results := optFilter f.max_bathrooms maxBathroomsTest results
  let results := optFilter f.min_sqft minSqftTest results
  let results := optFilter f.max_sqft maxSqftTest results
  let results := optFilter f.is_available isAvailableTest results
  let results := truthyListFilter f.amenities amenitiesTest results
  let results := truthyStrFilter f.city cityTest results
  let results := truthyStrFilter f.state stateTest results
  results

/-- `PUT /listings/{listing_id}` (`update_listing` of `src/main.py`):
404 when the identifier is absent; otherwise rebuild the address (with the
fresh identifier `aid` and instant `nowA`), rebuild the listing from the
payload keeping the route identifier and the original creation timestamp,
stamp `updated_at` with the instant `nowU`, store and return it. -/
def update_listing (aid : Nat) (nowA : Nat) (nowU : Nat)
    (db : Db) (listing_id : Nat) (payload : ListingCreate) :
    Db × Except ApiError (Response ListingRead) :=
  match dictGet db listing_id with
  | none => (db, .error .notFound)
  | some existing =>
    let new_address := make_address_read aid nowA payload.address
    let new_listing : ListingRead :=
      { id := listing_id
        title := payload.title
        description := payload.description
        monthly_rent := payload.monthly_rent
        num_bedrooms := payload.num_bedrooms
        num_bathrooms := payload.num_bathrooms
        square_feet := payload.square_feet
        amenities := payload.amenities
        is_available := payload.is_available
        address := new_address
        created_at := existing.created_at
        updated_at := nowU }
    (dictSet db listing_id new_listing, .ok ⟨200, new_listing⟩)

/-- `DELETE /listings/{listing_id}` (`delete_listing` of `src/main.py`):
404 when the identifier is absent; otherwise remove the entry and answer
with the route's 204 no-content status. -/
def delete_listing (db : Db) (listing_id : Nat) :
    Db × Except ApiError (Response Unit) :=
  if (dictGet db listing_id).isSome then
    (dictDel db listing_id, .ok ⟨204, ()⟩)
  else
    (db, .error .notFound)

/-! ### The filter pipeline as one conjunctive predicate -/

/-- The constraint an `optFilter` step places on one listing: trivially true
when the parameter is absent. -/
def optLift {α : Type} (o : Option α) (t : α → ListingRead → Bool)
    (l : ListingRead) : Bool :=
  match o with
  | none => true
  | some v => t v l

/-- The constraint a `truthyStrFilter` step places on one listing: trivially
true when the parameter is absent or the empty string. -/
def truthyStrLift (o : Option String) (t : String → ListingRead → Bool)
    (l : ListingRead) : Bool :=
  match o with
  | none => true
  | some s => if s = "" then true else t s l

/-- The constraint the `truthyListFilter` step places on one listing:
trivially true when the parameter is absent or the empty list. -/
def truthyListLift (o : Option (List String)) (t : List String → ListingRead → Bool)
    (l : ListingRead) : Bool :=
  match o with
  | none => true
  | some a => if a = [] then true else t a l

/-- One listing satisfies every supplied filter criterion: the logical AND
of the twelve individual constraints. -/
def matchesFilters (f : ListingFilters) (l : ListingRead) : Bool :=
  optLift f.min_rent minRentTest l &&
  optLift f.max_rent maxRentTest l &&
  optLift f.min_bedrooms minBedroomsTest l &&
  optLift f.max_bedrooms maxBedroomsTest l &&
  optLift f.min_bathrooms minBathroomsTest l &&
  optLift f.max_bathrooms maxBathroomsTest l &&
  optLift f.min_sqft minSqftTest l &&
  optLift f.max_sqft maxSqftTest l &&
  optLift f.is_available isAvailableTest l &&
  truthyListLift f.amenities amenitiesTest l &&
  truthyStrLift f.city cityTest l &&
  truthyStrLift f.state stateTest l

theorem optFilter_eq_filter {α : Type} (o : Option α) (t : α → ListingRead → Bool)
    (rs : List ListingRead) : optFilter o t rs = rs.filter (optLift o t) := by
  cases o with
  | none => exact (List.filter_eq_self.mpr (fun a _ => rfl)).symm
  | some v => rfl

theorem truthyStrFilter_eq_filter (o : Option String) (t : String → ListingRead → Bool)
    (rs : List ListingRead) : truthyStrFilter o t rs = rs.filter (truthyStrLift o t) := by
  cases o with
  | none => exact (List.filter_eq_self.mpr (fun a _ => rfl)).symm
  | some s =>
    by_cases h : s = ""
    · simp only [truthyStrFilter, if_pos h]
      exact (List.filter_eq_self.mpr (fun a _ => by simp [truthyStrLift, h])).symm
    · simp only [truthyStrFilter, if_neg h]
      exact List.filter_congr (fun a _ => by simp [truthyStrLift, h])

theorem truthyListFilter_eq_filter (o : Option (List String))
    (t : List String → ListingRead → Bool) (rs : List ListingRead) :
    truthyListFilter o t rs = rs.filter (truthyListLift o t) := by
  cases o with
  | none => exact (List.filter_eq_self.mpr (fun a _ => rfl)).symm
  | some a =>
    by_cases h : a = []
    · simp only [truthyListFilter, if_pos h]
      exact (List.filter_eq_self.mpr (fun x _ => by simp [truthyListLift, h])).symm
    · simp only [truthyListFilter, if_neg h]
      exact List.filter_congr (fun x _ => by simp [truthyListLift, h])

theorem and_reorder (a b c d e g h i j k m n : Bool) :
    (n && (m && (k && (j && (i && (h && (g && (e && (d && (c && (b && a))))))))))) =
      (a && b && c && d && e && g && h && i && j && k && m && n) := by
  revert a b c d e g h i j k m n
  decide

/-- The sequential filter pipeline of `list_listings` computes exactly the
filter of the store's values by the conjunctive predicate. -/
theorem list_listings_eq_filter (db : Db) (f : ListingFilters) :
    list_listings db f = (db.map Prod.snd).filter (matchesFilters f) := by
  show truthyStrFilter f.state stateTest
      (truthyStrFilter f.city cityTest
        (truthyListFilter f.amenities amenitiesTest
          (optFilter f.is_available isAvailableTest
            (optFilter f.max_sqft maxSqftTest
              (optFilter f.min_sqft minSqftTest
                (optFilter f.max_bathrooms maxBathroomsTest
                  (optFilter f.min_bathrooms minBathroomsTest
                    (optFilter f.max_bedrooms maxBedroomsTest
                      (optFilter f.min_bedrooms minBedroomsTest
                        (optFilter f.max_rent maxRentTest
                          (optFilter f.min_rent minRentTest
                            (db.map Prod.snd)))))))))))) = _
  rw [optFilter_eq_filter, optFilter_eq_filter, optFilter_eq_filter,
    optFilter_eq_filter, optFilter_eq_filter, optFilter_eq_filter,
    optFilter_eq_filter, optFilter_eq_filter, optFilter_eq_filter,
    truthyListFilter_eq_filter, truthyStrFilter_eq_filter,
    truthyStrFilter_eq_filter]
  simp only [List.filter_filter]
  exact List.filter_congr (fun l _ =>
    and_reorder (optLift f.min_rent minRentTest l)
      (optLift f.max_rent maxRentTest l)
      (optLift f.min_bedrooms minBedroomsTest l)
      (optLift f.max_bedrooms maxBedroomsTest l)
      (optLift f.min_bathrooms minBathroomsTest l)
      (optLift f.max_bathrooms maxBathroomsTest l)
      (optLift f.min_sqft minSqftTest l)
      (optLift f.max_sqft maxSqftTest l)
      (optLift f.is_available isAvailableTest l)
      (truthyListLift f.amenities amenitiesTest l)
      (truthyStrLift f.city cityTest l)
      (truthyStrLift f.state stateTest l))

/-! ### Store lemmas -/

theorem dictSet_of_absent (db : Db) (k : Nat) (v : ListingRead)
    (h : dictGet db k = none) : dictSet db k v = db ++ [(k, v)] := by
  simp [dictSet, h]

theorem dictGet_append_singleton (db : Db) (k : Nat) (v : ListingRead)
    (h : dictGet db k = none) : dictGet (db ++ [(k, v)]) k = some v := by
  induction db with
  | nil => simp [dictGet]
  | cons p rest ih =>
    obtain ⟨k', w⟩ := p
    by_cases hk : k' = k
    · simp [dictGet, hk] at h
    · simp only [dictGet, if_neg hk] at h ⊢
      exact ih h

theorem dictGet_map_replace (db : Db) (k : Nat) (v : ListingRead)
    (h : (dictGet db k).isSome) :
    dictGet (db.map (fun p => if p.1 = k then (k, v) else p)) k = some v := by
  induction db with
  | nil => simp [dictGet] at h
  | cons p rest ih =>
    obtain ⟨k', w⟩ := p
    simp only [List.map_cons]
    by_cases hk : k' = k
    · subst hk
      rw [show (if (k', w).1 = k' then (k', v) else (k', w)) = (k', v) from if_pos rfl]
      simp [dictGet]
    · rw [show (if (k', w).1 = k then (k, v) else (k', w)) = (k', w) from if_neg hk]
      simp only [dictGet, if_neg hk] at h ⊢
      exact ih h

theorem dictGet_dictSet_self (db : Db) (k : Nat) (v : ListingRead) :
    dictGet (dictSet db k v) k = some v := by
  unfold dictSet
  by_cases h : (dictGet db k).isSome
  · rw [if_pos h]
    exact dictGet_map_replace db k v h
  · rw [if_neg h]
    exact dictGet_append_singleton db k v (Option.not_isSome_iff_eq_none.mp h)

theorem dictGet_dictDel_self (db : Db) (k : Nat) :
    dictGet (dictDel db k) k = none := by
  induction db with
  | nil => rfl
  | cons p rest ih =>
    obtain ⟨k', w⟩ := p
    by_cases hk : k' = k
    · simpa [dictDel, hk] using ih
    · simpa [dictDel, dictGet, hk] using ih

/-! ### String lemmas -/

theorem strLower_eq_empty_iff (s : String) : strLower s = "" ↔ s = "" := by
  cases s with
  | mk data =>
    cases data with
    | nil => exact ⟨fun _ => rfl, fun _ => rfl⟩
    | cons c cs =>
      constructor
      · intro h
        have h2 := congrArg String.data h
        simp [strLower] at h2
      · intro h
        have h2 := congrArg String.data h
        simp at h2

/-! ### Concrete sample data -/

/-- A sample address payload. -/
def exAddr : AddressCreate :=
  { street := "123 Main St"
    city := "New York"
    state := some "NY"
    postal_code := some "10001"
    country := some "USA" }

/-- A sample creation payload with a chosen monthly rent. -/
def exPayload (rent : Rat) : ListingCreate :=
  { title := "Spacious 2-Bedroom Apartment"
    description := some "Modern apartment close to subway."
    monthly_rent := rent
    num_bedrooms := 2
    num_bathrooms := 1
    square_feet := some 900
    amenities := ["Gym", "Pool"]
    is_available := true
    address := exAddr }

/-- Stored listings with rents 1000, 1500 and 2000. -/
def exListing (i : Nat) (rent : Rat) : ListingRead :=
  make_listing_read i 0 (100 + i) 0 (exPayload rent)

/-- A store holding the three sample listings. -/
def exDb3 : Db :=
  [(1, exListing 1 1000), (2, exListing 2 1500), (3, exListing 3 2000)]

/-- Absent values for every filter criterion. -/
def noFilters : ListingFilters :=
  { min_rent := none
    max_rent := none
    min_bedrooms := none
    max_bedrooms := none
    min_bathrooms := none
    max_bathrooms := none
    min_sqft := none
    max_sqft := none
    amenities := none
    city := none
    state := none
    is_available := none }

/-! ### Small facts about the builders and the store -/

theorem make_listing_read_id (lid nowL aid nowA : Nat) (p : ListingCreate) :
    (make_listing_read lid nowL aid nowA p).id = lid := rfl

theorem make_listing_read_amenities (lid nowL aid nowA : Nat) (p : ListingCreate) :
    (make_listing_read lid nowL aid nowA p).amenities = p.amenities := by
  cases hl : p.amenities with
  | nil => simp [make_listing_read, hl]
  | cons a rest => simp [make_listing_read, hl]

theorem dictGet_mem (db : Db) (k : Nat) (v : ListingRead)
    (h : dictGet db k = some v) : (k, v) ∈ db := by
  induction db with
  | nil => simp [dictGet] at h
  | cons p rest ih =>
    obtain ⟨k', w⟩ := p
    by_cases hk : k' = k
    · subst hk
      have hw : w = v := by simpa [dictGet] using h
      subst hw
      exact List.mem_cons_self _ _
    · simp only [dictGet, if_neg hk] at h
      exact List.mem_cons_of_mem _ (ih h)

theorem list_listings_noFilters (db : Db) :
    list_listings db noFilters = db.map Prod.snd := rfl

/-! ### The claims -/

/-- C1: for every store contents and every combination of supplied filter
criteria, `list_listings` returns exactly the subset of stored listings
satisfying the conjunction of all supplied criteria (absent criteria impose
no constraint, `min_rent`/`max_rent` are inclusive bounds); and on a store
with rents 1000, 1500, 2000, the query `min_rent=1200, max_rent=1800`
returns exactly the 1500 listing. -/
theorem claim_C1_list_is_conjunctive_subset :
    (∀ (db : Db) (f : ListingFilters),
        list_listings db f = (db.map Prod.snd).filter (matchesFilters f)) ∧
      list_listings exDb3 { noFilters with min_rent := some 1200, max_rent := some 1800 } =
        [exListing 2 1500] :=
  ⟨list_listings_eq_filter, rfl⟩

/-- C3: `create_listing` signals the 400 collision error exactly when the
freshly generated listing identifier is already a key of the store, and
otherwise appends the built record to the store and returns it with the
201 created status. -/
theorem claim_C3_create_conflict_or_insert :
    ∀ (lid nowL aid nowA : Nat) (db : Db) (payload : ListingCreate),
      create_listing lid nowL aid nowA db payload =
        if (dictGet db lid).isSome then
          (db, Except.error ApiError.conflict)
        else
          (db ++ [(lid, make_listing_read lid nowL aid nowA payload)],
            Except.ok ⟨201, make_listing_read lid nowL aid nowA payload⟩) := by
  intro lid nowL aid nowA db payload
  simp only [create_listing, make_listing_read_id]
  by_cases h : (dictGet db lid).isSome
  · rw [if_pos h, if_pos h]
  · rw [if_neg h, if_neg h,
      dictSet_of_absent _ _ _ (Option.not_isSome_iff_eq_none.mp h)]

/-- C4: on an identifier absent from the store, both `update_listing` and
`delete_listing` signal the 404 error and return the store unchanged; on a
present identifier, `delete_listing` removes that entry from the store,
leaves every other entry, and answers with the 204 no-content status. -/
theorem claim_C4_notfound_and_delete :
    (∀ (aid nowA nowU : Nat) (db : Db) (lid : Nat) (payload : ListingCreate),
        dictGet db lid = none →
          update_listing aid nowA nowU db lid payload = (db, Except.error ApiError.notFound) ∧
          delete_listing db lid = (db, Except.error ApiError.notFound)) ∧
    (∀ (db : Db) (lid : Nat) (existing : ListingRead),
        dictGet db lid = some existing →
          delete_listing db lid =
            (db.filter (fun p => decide (p.1 ≠ lid)), Except.ok ⟨204, ()⟩) ∧
          dictGet (delete_listing db lid).1 lid = none) := by
  constructor
  · intro aid nowA nowU db lid payload h
    constructor
    · simp [update_listing, h]
    · have h' : (dictGet db lid).isSome = false := by simp [h]
      simp [delete_listing, h']
  · intro db lid existing h
    have h' : (dictGet db lid).isSome = true := by simp [h]
    constructor
    · simp [delete_listing, h', dictDel]
    · simp only [delete_listing, if_pos h']
      exact dictGet_dictDel_self db lid

/-- Witness for C4: on the empty store, update and delete of identifier 0
both answer 404 leaving the store empty; deleting identifier 2 from the
three-listing sample store removes it. -/
theorem claim_C4_witness :
    (update_listing 9 0 0 [] 0 (exPayload 1000) = ([], Except.error ApiError.notFound) ∧
      delete_listing ([] : Db) 0 = ([], Except.error ApiError.notFound)) ∧
    (delete_listing exDb3 2 =
        (exDb3.filter (fun p => decide (p.1 ≠ 2)), Except.ok ⟨204, ()⟩) ∧
      dictGet (delete_listing exDb3 2).1 2 = none) :=
  ⟨claim_C4_notfound_and_delete.1 9 0 0 [] 0 (exPayload 1000) rfl,
    claim_C4_notfound_and_delete.2 exDb3 2 (exListing 2 1500) rfl⟩

/-- C2: on an existing identifier, `update_listing` stores and returns a
record that keeps the route identifier and the original creation timestamp,
stamps `updated_at` with the new instant (which is at least the previous
update timestamp whenever the clock is monotone), replaces the embedded
address wholesale with a rebuilt one carrying the fresh address identifier,
and copies every other field from the payload. -/
theorem claim_C2_update_preserves_id_and_created_at
    (aid nowA nowU : Nat) (db : Db) (lid : Nat) (payload : ListingCreate)
    (existing : ListingRead)
    (h : dictGet db lid = some existing)
    (hclock : existing.updated_at ≤ nowU) :
    ∃ nl : ListingRead,
      update_listing aid nowA nowU db lid payload =
        (dictSet db lid nl, Except.ok ⟨200, nl⟩) ∧
      dictGet (update_listing aid nowA nowU db lid payload).1 lid = some nl ∧
      nl.id = lid ∧
      nl.created_at = existing.created_at ∧
      nl.updated_at = nowU ∧
      existing.updated_at ≤ nl.updated_at ∧
      nl.address = make_address_read aid nowA payload.address ∧
      nl.address.id = aid ∧
      nl.title = payload.title ∧
      nl.description = payload.description ∧
      nl.monthly_rent = payload.monthly_rent ∧
      nl.num_bedrooms = payload.num_bedrooms ∧
      nl.num_bathrooms = payload.num_bathrooms ∧
      nl.square_feet = payload.square_feet ∧
      nl.amenities = payload.amenities ∧
      nl.is_available = payload.is_available := by
  refine ⟨{ id := lid
            title := payload.title
            description := payload.description
            monthly_rent := payload.monthly_rent
            num_bedrooms := payload.num_bedrooms
            num_bathrooms := payload.num_bathrooms
            square_feet := payload.square_feet
            amenities := payload.amenities
            is_available := payload.is_available
            address := make_address_read aid nowA payload.address
            created_at := existing.created_at
            updated_at := nowU }, ?_, ?_, rfl, rfl, rfl, hclock, rfl, rfl,
      rfl, rfl, rfl, rfl, rfl, rfl, rfl, rfl⟩
  · simp [update_listing, h]
  · simp only [update_listing, h]
    exact dictGet_dictSet_self db lid _

/-- Witness for C2: updating listing 2 of the sample store at instant 5
with a rent-1234 payload and fresh address identifier 9. -/
theorem claim_C2_witness :
    ∃ nl : ListingRead,
      update_listing 9 4 5 exDb3 2 (exPayload 1234) =
        (dictSet exDb3 2 nl, Except.ok ⟨200, nl⟩) ∧
      dictGet (update_listing 9 4 5 exDb3 2 (exPayload 1234)).1 2 = some nl ∧
      nl.id = 2 ∧
      nl.created_at = (exListing 2 1500).created_at ∧
      nl.updated_at = 5 ∧
      (exListing 2 1500).updated_at ≤ nl.updated_at ∧
      nl.address = make_address_read 9 4 (exPayload 1234).address ∧
      nl.address.id = 9 ∧
      nl.title = (exPayload 1234).title ∧
      nl.description = (exPayload 1234).description ∧
      nl.monthly_rent = (exPayload 1234).monthly_rent ∧
      nl.num_bedrooms = (exPayload 1234).num_bedrooms ∧
      nl.num_bathrooms = (exPayload 1234).num_bathrooms ∧
      nl.square_feet = (exPayload 1234).square_feet ∧
      nl.amenities = (exPayload 1234).amenities ∧
      nl.is_available = (exPayload 1234).is_available :=
  claim_C2_update_preserves_id_and_created_at 9 4 5 exDb3 2 (exPayload 1234)
    (exListing 2 1500) rfl (by decide)

/-- C5: whenever `create_listing` succeeds, listing the resulting store with
no filter criteria supplied includes the newly created record, and every
input field of that record — the scalar fields, the amenities, the
availability flag, and each address field — equals the corresponding value
of the creation payload. -/
theorem claim_C5_create_then_list_roundtrip
    (lid nowL aid nowA : Nat) (db : Db) (payload : ListingCreate)
    (h : dictGet db lid = none) :
    ∃ nl : ListingRead,
      (create_listing lid nowL aid nowA db payload).2 = Except.ok ⟨201, nl⟩ ∧
      nl ∈ list_listings (create_listing lid nowL aid nowA db payload).1 noFilters ∧
      nl.title = payload.title ∧
      nl.description = payload.description ∧
      nl.monthly_rent = payload.monthly_rent ∧
      nl.num_bedrooms = payload.num_bedrooms ∧
      nl.num_bathrooms = payload.num_bathrooms ∧
      nl.square_feet = payload.square_feet ∧
      nl.amenities = payload.amenities ∧
      nl.is_available = payload.is_available ∧
      nl.address.street = payload.address.street ∧
      nl.address.city = payload.address.city ∧
      nl.address.state = payload.address.state ∧
      nl.address.postal_code = payload.address.postal_code ∧
      nl.address.country = payload.address.country := by
  have h' : (dictGet db lid).isSome = false := by simp [h]
  refine ⟨make_listing_read lid nowL aid nowA payload, ?_, ?_,
    rfl, rfl, rfl, rfl, rfl, rfl, make_listing_read_amenities lid nowL aid nowA payload,
    rfl, rfl, rfl, rfl, rfl, rfl⟩
  · simp [create_listing, make_listing_read_id, h']
  · rw [list_listings_noFilters]
    simp [create_listing, make_listing_read_id, h',
      dictSet_of_absent db lid _ h]

/-- Witness for C5: creating a rent-1000 listing as identifier 42 on the
empty store and listing with no filters. -/
theorem claim_C5_witness :
    ∃ nl : ListingRead,
      (create_listing 42 0 142 0 [] (exPayload 1000)).2 = Except.ok ⟨201, nl⟩ ∧
      nl ∈ list_listings (create_listing 42 0 142 0 [] (exPayload 1000)).1 noFilters ∧
      nl.title = (exPayload 1000).title ∧
      nl.description = (exPayload 1000).description ∧
      nl.monthly_rent = (exPayload 1000).monthly_rent ∧
      nl.num_bedrooms = (exPayload 1000).num_bedrooms ∧
      nl.num_bathrooms = (exPayload 1000).num_bathrooms ∧
      nl.square_feet = (exPayload 1000).square_feet ∧
      nl.amenities = (exPayload 1000).amenities ∧
      nl.is_available = (exPayload 1000).is_available ∧
      nl.address.street = (exPayload 1000).address.street ∧
      nl.address.city = (exPayload 1000).address.city ∧
      nl.address.state = (exPayload 1000).address.state ∧
      nl.address.postal_code = (exPayload 1000).address.postal_code ∧
      nl.address.country = (exPayload 1000).address.country :=
  claim_C5_create_then_list_roundtrip 42 0 142 0 [] (exPayload 1000) rfl

/-- C6: a supplied non-empty amenities filter keeps exactly the stored
listings whose amenities contain every requested tag (exact string match,
a subset test); a listing with amenities Gym and Pool matches the filter
[Gym] and not the filter [Gym, Sauna]. -/
theorem claim_C6_amenities_subset :
    (∀ (db : Db) (req : List String) (l : ListingRead), req ≠ [] →
        (l ∈ list_listings db { noFilters with amenities := some req } ↔
          l ∈ db.map Prod.snd ∧ req.all (fun a => l.amenities.contains a) = true)) ∧
    list_listings [(1, exListing 1 1000)] { noFilters with amenities := some ["Gym"] } =
      [exListing 1 1000] ∧
    list_listings [(1, exListing 1 1000)]
        { noFilters with amenities := some ["Gym", "Sauna"] } = [] := by
  refine ⟨?_, rfl, rfl⟩
  intro db req l h
  rw [list_listings_eq_filter, List.mem_filter]
  have hm : matchesFilters { noFilters with amenities := some req } l =
      req.all (fun a => l.amenities.contains a) := by
    simp [matchesFilters, noFilters, optLift, truthyListLift, truthyStrLift,
      amenitiesTest, h]
  rw [hm]

/-- Witness for C6: the Gym-and-Pool sample listing is kept by the filter
requesting the single tag Gym. -/
theorem claim_C6_witness :
    exListing 1 1000 ∈
      list_listings [(1, exListing 1 1000)] { noFilters with amenities := some ["Gym"] } :=
  (claim_C6_amenities_subset.1 [(1, exListing 1 1000)] ["Gym"] (exListing 1 1000)
    (by decide)).mpr ⟨by decide, by decide⟩

/-- C7: a supplied non-empty city filter keeps exactly the stored listings
whose address city equals the filter value case-insensitively; a supplied
non-empty state filter keeps exactly those whose address carries a state
equal to the filter value case-insensitively, so a listing without a state
never matches; the New York listing matches the filter city new york. -/
theorem claim_C7_city_state_case_insensitive :
    (∀ (db : Db) (c : String) (l : ListingRead), c ≠ "" →
        (l ∈ list_listings db { noFilters with city := some c } ↔
          l ∈ db.map Prod.snd ∧ strLower l.address.city = strLower c)) ∧
    (∀ (db : Db) (s : String) (l : ListingRead), s ≠ "" →
        (l ∈ list_listings db { noFilters with state := some s } ↔
          l ∈ db.map Prod.snd ∧
            ∃ st, l.address.state = some st ∧ strLower st = strLower s)) ∧
    list_listings [(1, exListing 1 1000)] { noFilters with city := some "new york" } =
      [exListing 1 1000] := by
  refine ⟨?_, ?_, rfl⟩
  · intro db c l h
    rw [list_listings_eq_filter, List.mem_filter]
    have hm : matchesFilters { noFilters with city := some c } l =
        (strLower l.address.city == strLower c) := by
      simp [matchesFilters, noFilters, optLift, truthyListLift, truthyStrLift,
        cityTest, h]
    rw [hm]
    simp [beq_iff_eq]
  · intro db s l h
    rw [list_listings_eq_filter, List.mem_filter]
    have hm : matchesFilters { noFilters with state := some s } l =
        stateTest s l := by
      simp [matchesFilters, noFilters, optLift, truthyListLift, truthyStrLift, h]
    rw [hm]
    have hs : strLower s ≠ "" := fun hc => h ((strLower_eq_empty_iff s).mp hc)
    constructor
    · rintro ⟨hmem, ht⟩
      refine ⟨hmem, ?_⟩
      cases hst : l.address.state with
      | none => simp [stateTest, hst] at ht
      | some st =>
        simp only [stateTest, hst] at ht
        by_cases he : st = ""
        · rw [if_pos he] at ht
          exact absurd ht (by simp)
        · rw [if_neg he] at ht
          exact ⟨st, rfl, by simpa using ht⟩
    · rintro ⟨hmem, st, hst, hlow⟩
      refine ⟨hmem, ?_⟩
      have he : st ≠ "" := by
        intro he
        apply hs
        rw [← hlow, he]
        rfl
      simp [stateTest, hst, he, hlow]

/-- Witness for C7: the New York sample listing passes the lower-case city
filter and, via its NY state, the filter state ny. -/
theorem claim_C7_witness :
    exListing 1 1000 ∈
      list_listings [(1, exListing 1 1000)] { noFilters with city := some "new york" } ∧
    exListing 1 1000 ∈
      list_listings [(1, exListing 1 1000)] { noFilters with state := some "ny" } :=
  ⟨(claim_C7_city_state_case_insensitive.1 [(1, exListing 1 1000)] "new york"
      (exListing 1 1000) (by decide)).mpr ⟨by decide, by decide⟩,
    (claim_C7_city_state_case_insensitive.2.1 [(1, exListing 1 1000)] "ny"
      (exListing 1 1000) (by decide)).mpr ⟨by decide, "NY", rfl, by decide⟩⟩

/-- A stored listing whose square footage is absent. -/
def exNoSqft : ListingRead :=
  make_listing_read 7 0 107 0 { exPayload 1000 with square_feet := none }

/-- Counterexample to C8 as stated: the stored listing `exNoSqft` has no
square footage, yet the query `max_sqft = -1` (accepted, since the
parameter is a plain integer) excludes it — it does not pass every
`max_sqft` filter. -/
theorem claim_C8_counterexample :
    exNoSqft.square_feet = none ∧
    exNoSqft ∈ (([(7, exNoSqft)] : Db).map Prod.snd) ∧
    list_listings [(7, exNoSqft)] { noFilters with max_sqft := some (-1) } = [] :=
  ⟨rfl, by simp, rfl⟩

/-- C8 as amended: `min_sqft` and `max_sqft` are inclusive bounds on the
square footage with an absent square footage read as 0, so an absent-sqft
listing passes a `max_sqft` filter exactly when the bound is at least 0 and
a `min_sqft` filter exactly when the bound is at most 0. -/
theorem claim_C8_sqft_bounds_amended :
    (∀ (db : Db) (v : Int) (l : ListingRead),
        l ∈ list_listings db { noFilters with min_sqft := some v } ↔
          l ∈ db.map Prod.snd ∧ v ≤ l.square_feet.getD 0) ∧
    (∀ (db : Db) (v : Int) (l : ListingRead),
        l ∈ list_listings db { noFilters with max_sqft := some v } ↔
          l ∈ db.map Prod.snd ∧ l.square_feet.getD 0 ≤ v) ∧
    (∀ (db : Db) (v : Int) (l : ListingRead), l.square_feet = none →
        ((l ∈ list_listings db { noFilters with max_sqft := some v } ↔
            l ∈ db.map Prod.snd ∧ 0 ≤ v) ∧
          (l ∈ list_listings db { noFilters with min_sqft := some v } ↔
            l ∈ db.map Prod.snd ∧ v ≤ 0))) := by
  have hmin : ∀ (db : Db) (v : Int) (l : ListingRead),
      l ∈ list_listings db { noFilters with min_sqft := some v } ↔
        l ∈ db.map Prod.snd ∧ v ≤ l.square_feet.getD 0 := by
    intro db v l
    rw [list_listings_eq_filter, List.mem_filter]
    have hm : matchesFilters { noFilters with min_sqft := some v } l =
        decide (v ≤ l.square_feet.getD 0) := by
      simp [matchesFilters, noFilters, optLift, truthyListLift, truthyStrLift,
        minSqftTest]
    rw [hm]
    simp
  have hmax : ∀ (db : Db) (v : Int) (l : ListingRead),
      l ∈ list_listings db { noFilters with max_sqft := some v } ↔
        l ∈ db.map Prod.snd ∧ l.square_feet.getD 0 ≤ v := by
    intro db v l
    rw [list_listings_eq_filter, List.mem_filter]
    have hm : matchesFilters { noFilters with max_sqft := some v } l =
        decide (l.square_feet.getD 0 ≤ v) := by
      simp [matchesFilters, noFilters, optLift, truthyListLift, truthyStrLift,
        maxSqftTest]
    rw [hm]
    simp
  refine ⟨hmin, hmax, ?_⟩
  intro db v l h
  constructor
  · rw [hmax db v l, h]
    exact Iff.rfl
  · rw [hmin db v l, h]
    exact Iff.rfl

/-- Witness for the amended C8: the absent-sqft listing passes `max_sqft=0`
and `min_sqft=0` on its singleton store. -/
theorem claim_C8_witness :
    (exNoSqft ∈ list_listings [(7, exNoSqft)] { noFilters with max_sqft := some 0 } ↔
      exNoSqft ∈ (([(7, exNoSqft)] : Db).map Prod.snd) ∧ (0 : Int) ≤ 0) ∧
    (exNoSqft ∈ list_listings [(7, exNoSqft)] { noFilters with min_sqft := some 0 } ↔
      exNoSqft ∈ (([(7, exNoSqft)] : Db).map Prod.snd) ∧ (0 : Int) ≤ 0) :=
  claim_C8_sqft_bounds_amended.2.2 [(7, exNoSqft)] 0 exNoSqft rfl

/-- Every record of the store has its listing and embedded address update
timestamps at or after the matching creation timestamps. -/
def dbTimestampsOk (db : Db) : Bool :=
  db.all fun q =>
    decide (q.2.created_at ≤ q.2.updated_at) &&
    decide (q.2.address.created_at ≤ q.2.address.updated_at)

theorem dbTimestampsOk_iff (db : Db) :
    dbTimestampsOk db = true ↔
      ∀ q ∈ db, q.2.created_at ≤ q.2.updated_at ∧
        q.2.address.created_at ≤ q.2.address.updated_at := by
  simp [dbTimestampsOk]

/-- C9: both builders stamp the produced record's creation and update
timestamps with the same instant, and the store invariant that every
record's update timestamp is at least its creation timestamp is preserved
by create, update (under a monotone non-decreasing clock) and delete. -/
theorem claim_C9_timestamp_invariant :
    (∀ (aid now : Nat) (addr : AddressCreate),
        (make_address_read aid now addr).created_at = now ∧
        (make_address_read aid now addr).updated_at = now) ∧
    (∀ (lid nowL aid nowA : Nat) (p : ListingCreate),
        (make_listing_read lid nowL aid nowA p).created_at = nowL ∧
        (make_listing_read lid nowL aid nowA p).updated_at = nowL ∧
        (make_listing_read lid nowL aid nowA p).address.created_at = nowA ∧
        (make_listing_read lid nowL aid nowA p).address.updated_at = nowA) ∧
    (∀ (lid nowL aid nowA : Nat) (db : Db) (p : ListingCreate),
        dbTimestampsOk db = true →
        dbTimestampsOk (create_listing lid nowL aid nowA db p).1 = true) ∧
    (∀ (aid nowA nowU : Nat) (db : Db) (lid : Nat) (p : ListingCreate),
        dbTimestampsOk db = true →
        (∀ q ∈ db, q.2.updated_at ≤ nowU) →
        dbTimestampsOk (update_listing aid nowA nowU db lid p).1 = true) ∧
    (∀ (db : Db) (lid : Nat),
        dbTimestampsOk db = true →
        dbTimestampsOk (delete_listing db lid).1 = true) := by
  refine ⟨fun aid now addr => ⟨rfl, rfl⟩,
    fun lid nowL aid nowA p => ⟨rfl, rfl, rfl, rfl⟩, ?_, ?_, ?_⟩
  · intro lid nowL aid nowA db p hdb
    by_cases h : (dictGet db lid).isSome
    · simp only [create_listing, make_listing_read_id, if_pos h]
      exact hdb
    · simp only [create_listing, make_listing_read_id, if_neg h]
      rw [dictSet_of_absent db lid _ (Option.not_isSome_iff_eq_none.mp h)]
      rw [dbTimestampsOk_iff] at hdb ⊢
      intro q hq
      rcases List.mem_append.mp hq with hq | hq
      · exact hdb q hq
      · rcases List.mem_singleton.mp hq with rfl
        exact ⟨le_refl _, le_refl _⟩
  · intro aid nowA nowU db lid p hdb hmono
    cases hg : dictGet db lid with
    | none => simpa [update_listing, hg] using hdb
    | some existing =>
      have hmem := dictGet_mem db lid existing hg
      have hsome : (dictGet db lid).isSome = true := by simp [hg]
      simp only [update_listing, hg, dictSet, hsome, if_pos]
      rw [dbTimestampsOk_iff] at hdb ⊢
      intro q hq
      rcases List.mem_map.mp hq with ⟨q₀, hq₀, rfl⟩
      by_cases hk : q₀.1 = lid
      · rw [if_pos hk]
        refine ⟨?_, le_refl _⟩
        have h1 : existing.created_at ≤ existing.updated_at := (hdb _ hmem).1
        have h2 : existing.updated_at ≤ nowU := hmono _ hmem
        exact le_trans h1 h2
      · rw [if_neg hk]
        exact hdb q₀ hq₀
  · intro db lid hdb
    by_cases h : (dictGet db lid).isSome
    · simp only [delete_listing, if_pos h]
      rw [dbTimestampsOk_iff] at hdb ⊢
      intro q hq
      exact hdb q (List.mem_filter.mp hq).1
    · simpa [delete_listing, h] using hdb

/-- Witness for C9: updating listing 2 of the all-zero-timestamp sample
store at instant 5 keeps every stored record's update timestamp at or
after its creation timestamp. -/
theorem claim_C9_witness :
    dbTimestampsOk (update_listing 9 4 5 exDb3 2 (exPayload 1234)).1 = true :=
  claim_C9_timestamp_invariant.2.2.2.1 9 4 5 exDb3 2 (exPayload 1234)
    (by decide) (by decide)

/-- C10: at the public interface of the list operation, an explicitly
supplied but empty filter value — an empty amenities list, an empty city
string, an empty state string — changes nothing relative to the absent
filter, whereas a supplied `is_available` value (false included) is a real
equality constraint on the availability flag. -/
theorem claim_C10_empty_filters_impose_nothing :
    (∀ (db : Db) (f : ListingFilters),
        list_listings db { f with amenities := some [] } =
          list_listings db { f with amenities := none }) ∧
    (∀ (db : Db) (f : ListingFilters),
        list_listings db { f with city := some "" } =
          list_listings db { f with city := none }) ∧
    (∀ (db : Db) (f : ListingFilters),
        list_listings db { f with state := some "" } =
          list_listings db { f with state := none }) ∧
    (∀ (db : Db) (b : Bool) (l : ListingRead),
        l ∈ list_listings db { noFilters with is_available := some b } ↔
          l ∈ db.map Prod.snd ∧ l.is_available = b) ∧
    list_listings [(1, exListing 1 1000)] { noFilters with is_available := some false } = [] ∧
    list_listings [(1, exListing 1 1000)] noFilters = [exListing 1 1000] := by
  refine ⟨?_, ?_, ?_, ?_, rfl, rfl⟩
  · intro db f
    rw [list_listings_eq_filter, list_listings_eq_filter]
    exact List.filter_congr fun l _ => by
      simp [matchesFilters, truthyListLift]
  · intro db f
    rw [list_listings_eq_filter, list_listings_eq_filter]
    exact List.filter_congr fun l _ => by
      simp [matchesFilters, truthyStrLift]
  · intro db f
    rw [list_listings_eq_filter, list_listings_eq_filter]
    exact List.filter_congr fun l _ => by
      simp [matchesFilters, truthyStrLift]
  · intro db b l
    rw [list_listings_eq_filter, List.mem_filter]
    have hm : matchesFilters { noFilters with is_available := some b } l =
        (l.is_available == b) := by
      simp [matchesFilters, noFilters, optLift, truthyListLift, truthyStrLift,
        isAvailableTest]
    rw [hm]
    simp [beq_iff_eq]

end ApartmentListings
